import Mathlib

/-!
Verification of the multi-cycle analysis coordinator
(`src/specify_cli/analyzers/multi_cycle_coordinator.py`).

The development is a shallow embedding of the coordinator: Python dicts
become insertion-ordered association lists over an inductive `Value` type,
floats become rationals, analyzer calls become oracle functions in an
environment record, and statements that can raise become `Except`/`Option`
results.  Each definition is translated from the source module; deviations
forced by the shallow embedding (timestamps, logging, filesystem walks) are
noted in the doc comments of the definitions concerned.
-/

namespace MultiCycle

/-- Python-like dynamic values, as used for analyzer payloads, cycle
parameters and the accumulated-knowledge store.  Floats are modelled as
rationals (every literal in the module is a decimal constant). -/
inductive Value where
  | null : Value
  | bool : Bool → Value
  | num : ℚ → Value
  | str : String → Value
  | list : List Value → Value
  | dict : List (String × Value) → Value

/-- A Python dict with string keys, in insertion order (CPython dicts
preserve insertion order; keys are unique in every dict the coordinator
builds). -/
abbrev Dict := List (String × Value)

/-- `d[key]` lookup on an association list (first matching key wins, as in
a Python dict, whose keys are unique). -/
def getEntry : Dict → String → Option Value
  | [], _ => none
  | (k, v) :: rest, key => if k = key then some v else getEntry rest key

/-- `d[key] = v`: replace the value in place if the key is present
(preserving its position), otherwise append — exactly the insertion-order
behaviour of assignment into a CPython dict. -/
def setEntry : Dict → String → Value → Dict
  | [], key, v => [(key, v)]
  | (k, w) :: rest, key, v =>
      if k = key then (k, v) :: rest else (k, w) :: setEntry rest key v

/-- `d.get(key, dflt)`. -/
def getD (d : Dict) (key : String) (dflt : Value) : Value :=
  (getEntry d key).getD dflt

/-- Read a value as a number.  The coordinator only ever compares such
values numerically; a non-numeric value in one of these fields would raise
`TypeError` in Python and is mapped to the default (no analyzer payload in
the repository stores a non-number in a numeric field). -/
def asNum (v : Value) (dflt : ℚ) : ℚ :=
  match v with
  | .num q => q
  | _ => dflt

/-- `d.get(key, dflt)` for a numeric field. -/
def getNum (d : Dict) (key : String) (dflt : ℚ) : ℚ :=
  asNum (getD d key (.num dflt)) dflt

/-- `v.get(key, dflt)` when the receiver is itself a fetched `Value`.  In
Python a non-dict receiver would raise `AttributeError`; every receiver in
the coordinator is a dict, and the non-dict case maps to the default. -/
def vget (v : Value) (key : String) (dflt : Value) : Value :=
  match v with
  | .dict d => getD d key dflt
  | _ => dflt

/-- Python truthiness, used by `if params.get("previous_knowledge"):`. -/
def truthy : Value → Bool
  | .null => false
  | .bool b => b
  | .num q => q != 0
  | .str s => s != ""
  | .list xs => !xs.isEmpty
  | .dict xs => !xs.isEmpty

/-- Embeds the per-result branch of `_calculate_confidence_scores`
(lines 620–649).  For a dict result the branches are tried in source
order: an explicit `confidence` field; a classification shape
(`project_type` present, `confidence_score` defaulting to 0.5); an
architecture shape (`primary_pattern` present, `confidence` defaulting to
0.5); a dependency shape (`summary` present, 0.8 when both dependency
counts are positive else 0.3); a context shape (`total_commits` present,
0.7 when the commit count exceeds 10 else 0.4); otherwise the default 0.5.
A non-dict result scores 0.0 (the `else` branch of the `isinstance`
check). -/
def scoreResult : Value → ℚ
  | .dict d =>
      match getEntry d "confidence" with
      | some v => asNum v 0
      | none =>
          if (getEntry d "project_type").isSome then
            getNum d "confidence_score" 0.5
          else if (getEntry d "primary_pattern").isSome then
            getNum d "confidence" 0.5
          else if (getEntry d "summary").isSome then
            (match getEntry d "summary" with
             | some (.dict sd) =>
                 if 0 < getNum sd "total_direct_dependencies" 0 ∧
                    0 < getNum sd "total_transitive_dependencies" 0 then 0.8
                 else 0.3
             | _ => 0.3)
          else if (getEntry d "total_commits").isSome then
            if 10 < getNum d "total_commits" 0 then 0.7 else 0.4
          else 0.5
  | _ => 0

/-- Embeds `_calculate_confidence_scores` (lines 620–649): one score per
entry of the results dict, in iteration order. -/
def calculateConfidenceScores (results : Dict) : List (String × ℚ) :=
  results.map (fun kv => (kv.1, scoreResult kv.2))

/-- `v.get(key, dflt)` for a numeric field of a fetched value. -/
def vgetNum (v : Value) (key : String) (dflt : ℚ) : ℚ :=
  asNum (vget v key (.num dflt)) dflt

/-- Python `str()` restricted to the string values the coordinator stores
in `error` fields (the executors only ever store `str(e)` there). -/
def errText : Value → String
  | .str s => s
  | _ => "<value>"

/-- The flags `_identify_cycle_uncertainties` (lines 722–746) appends for
one `(analysis_type, result)` entry, in source order: the low-confidence
flag (raw `confidence` field, default 0.5, below 0.7), the error flag
(an `error` key is present), the missing-dependencies flag (the entry is
named `dependencies` and `summary.total_direct_dependencies`, default 0,
is 0 — this also fires for error results, whose summary is missing), and
the missing-history flag (the entry is named `context` and
`total_commits`, default 0, is 0).  Non-dict results are skipped by the
`isinstance` guard. -/
def uncertaintyFlags (analysisType : String) (result : Value) : List String :=
  match result with
  | .dict d =>
      (if getNum d "confidence" 0.5 < 0.7 then
        ["Low confidence in " ++ analysisType ++ " analysis"] else []) ++
      (match getEntry d "error" with
       | some e => ["Error in " ++ analysisType ++ ": " ++ errText e]
       | none => []) ++
      (if analysisType = "dependencies" then
        (if vgetNum (getD d "summary" (.dict [])) "total_direct_dependencies" 0 = 0 then
          ["No dependencies detected"] else [])
       else []) ++
      (if analysisType = "context" then
        (if getNum d "total_commits" 0 = 0 then
          ["No git history available"] else [])
       else [])
  | _ => []

/-- Embeds `_identify_cycle_uncertainties` (lines 722–746): the for-loop
appends each entry's flags into one list in iteration order. -/
def identifyCycleUncertainties (results : Dict) : List String :=
  results.flatMap (fun kv => uncertaintyFlags kv.1 kv.2)

/-- The `AnalysisInsight` dataclass (lines 70–79). -/
structure AnalysisInsight where
  insightType : String
  description : String
  confidence : ℚ
  evidence : List String
  cycleDiscovered : Nat
  impactLevel : String
  deriving Repr, DecidableEq

/-- Rendering of a number inside an f-string.  Approximates Python's
float/int formatting; no claim depends on the rendered digits. -/
def numText (q : ℚ) : String := toString q

/-- A `Value` that should be a list of strings (`secondary_patterns`). -/
def asStrList : Value → List String
  | .list xs => xs.map errText
  | _ => []

/-- Embeds `_extract_cycle_insights` (lines 651–720): at most one insight
per trigger per cycle, in source order — complexity above 7 (high, 0.8),
more than two secondary patterns (medium, 0.7), positive vulnerability
count (critical, 0.9), bus factor at most 1 (high, 0.8). -/
def extractCycleInsights (results : Dict) (cycleNumber : Nat) : List AnalysisInsight :=
  let fromClassification :=
    match getEntry results "classification" with
    | some (.dict c) =>
        let complexity := getNum c "complexity_score" 0
        if 7 < complexity then
          [{ insightType := "complexity",
             description := "High complexity project (" ++ numText complexity ++
               "/10) requires careful architecture",
             confidence := 0.8,
             evidence := ["Complexity score: " ++ numText complexity],
             cycleDiscovered := cycleNumber, impactLevel := "high" }]
        else []
    | _ => []
  let fromArchitecture :=
    match getEntry results "architecture" with
    | some (.dict a) =>
        let patterns := asStrList (getD a "secondary_patterns" (.list []))
        if 2 < patterns.length then
          [{ insightType := "architecture",
             description := "Multiple architectural patterns detected: " ++
               String.intercalate ", " patterns,
             confidence := 0.7, evidence := patterns,
             cycleDiscovered := cycleNumber, impactLevel := "medium" }]
        else []
    | _ => []
  let fromDependencies :=
    match getEntry results "dependencies" with
    | some (.dict dp) =>
        let vulnCount := vgetNum (getD dp "summary" (.dict [])) "vulnerability_count" 0
        if 0 < vulnCount then
          [{ insightType := "security",
             description := "Found " ++ numText vulnCount ++
               " potential security vulnerabilities",
             confidence := 0.9,
             evidence := ["Vulnerability count: " ++ numText vulnCount],
             cycleDiscovered := cycleNumber, impactLevel := "critical" }]
        else []
    | _ => []
  let fromContext :=
    match getEntry results "context" with
    | some (.dict ct) =>
        let busFactor := getNum ct "bus_factor" 1
        if busFactor ≤ 1 then
          [{ insightType := "risk",
             description := "Low bus factor - project knowledge concentrated in few developers",
             confidence := 0.8,
             evidence := ["Bus factor: " ++ numText busFactor],
             cycleDiscovered := cycleNumber, impactLevel := "high" }]
        else []
    | _ => []
  fromClassification ++ fromArchitecture ++ fromDependencies ++ fromContext

/-- Embeds `_generate_cycle_recommendations` (lines 748–778).  The
`results` argument is accepted and ignored, as in the source. -/
def generateCycleRecommendations (_results : Dict)
    (confidenceScores : List (String × ℚ)) (uncertainties : List String) :
    List String :=
  let lowConfidenceAreas := (confidenceScores.filter (fun kv => kv.2 < 0.7)).map (fun kv => kv.1)
  (if !lowConfidenceAreas.isEmpty then
    ["Focus on improving " ++ String.intercalate ", " lowConfidenceAreas ++ " analysis"]
   else []) ++
  (if !uncertainties.isEmpty then
    ["Address uncertainties: " ++ String.intercalate ", " (uncertainties.take 3)]
   else []) ++
  (if confidenceScores.any (fun kv => 0.7 < kv.2) then
    ["Consider enabling MCP integrations for enhanced analysis"]
   else []) ++
  (if 3 ≤ confidenceScores.length then
    ["Perform cross-analysis validation between components"]
   else [])

/-- The run environment: the four analyzer ports as oracle functions
(each returns the `asdict` image of its dataclass result, or the message
of the exception it raised — `map_dependencies` already returns a plain
dict), plus the external facts a run observes.  Arguments kept are
exactly those the coordinator varies; constants (`detect_frameworks=True`,
`check_licenses` defaults) are folded into the oracles.
`classify depth includeDependencies`, `detectArchitecture projectAnalysis
frameworkSpecific`, `mapDependencies includeTransitive
checkVulnerabilities`, `analyzeContext depth includeDeveloperProfiles`.
`gatherOk = false` models the `except` branch around `asyncio.gather` in
`_execute_parallel_analysis` (a fan-out failure leaves the results dict
empty); `cycleDuration n` is the wall-clock duration measured for cycle
`n`; `projectStructure` is what `_get_project_structure` scanned. -/
structure Env where
  classify : String → Bool → Except String Dict
  detectArchitecture : Option Value → Bool → Except String Dict
  mapDependencies : Bool → Bool → Except String Dict
  analyzeContext : String → Bool → Except String Dict
  gatherOk : Bool
  cycleDuration : Nat → ℚ
  projectPath : String
  projectStructure : Value

/-- The `try/except` around one analyzer call: a normal return is stored
as its dict, a raised exception `e` as `{"error": str(e)}`. -/
def resultEntry : Except String Dict → Value
  | .ok p => .dict p
  | .error e => .dict [("error", .str e)]

/-- `params.get(key, dflt)` used in boolean position (Python truthiness;
every stored value under these keys is a real bool). -/
def paramBool (p : Dict) (key : String) (dflt : Bool) : Bool :=
  match getEntry p key with
  | some v => truthy v
  | none => dflt

/-- `params[key]` for the always-present string `analysis_depth`. -/
def paramStr (p : Dict) (key : String) : String :=
  match getEntry p key with
  | some (.str s) => s
  | _ => ""

/-- Embeds `_execute_sequential_analysis` (lines 408–467): classification,
then architecture (receiving the just-stored classification entry as
`project_analysis`), then dependencies gated on `include_dependencies`,
then context gated on `include_history`; each call's failure is recorded
as an error entry. -/
def executeSequentialAnalysis (env : Env) (params : Dict) : Dict :=
  let depth := paramStr params "analysis_depth"
  let r1 := setEntry [] "classification"
      (resultEntry (env.classify depth (paramBool params "include_dependencies" false)))
  let r2 := setEntry r1 "architecture"
      (resultEntry (env.detectArchitecture (getEntry r1 "classification")
        (paramBool params "framework_specific" true)))
  let r3 :=
    if paramBool params "include_dependencies" false then
      setEntry r2 "dependencies"
        (resultEntry (env.mapDependencies (paramBool params "include_transitive" false)
          (paramBool params "check_vulnerabilities" false)))
    else r2
  if paramBool params "include_history" false then
    setEntry r3 "context"
      (resultEntry (env.analyzeContext depth
        (paramBool params "include_developer_profiles" false)))
  else r3

/-- Embeds `_execute_parallel_analysis` (lines 469–528): the task list is
built in the fixed order (classification, architecture with
`project_analysis=None`, then the two gated tasks) and zipped against the
constant `result_keys` list — faithfully preserving the source's keying
of the i-th task by the i-th key.  When the fan-out itself fails the
results dict is returned empty. -/
def executeParallelAnalysis (env : Env) (params : Dict) : Dict :=
  if env.gatherOk then
    let depth := paramStr params "analysis_depth"
    let tasks : List (Except String Dict) :=
      [env.classify depth (paramBool params "include_dependencies" false),
       env.detectArchitecture none (paramBool params "framework_specific" true)] ++
      (if paramBool params "include_dependencies" false then
        [env.mapDependencies (paramBool params "include_transitive" false)
          (paramBool params "check_vulnerabilities" false)]
       else []) ++
      (if paramBool params "include_history" false then
        [env.analyzeContext depth (paramBool params "include_developer_profiles" false)]
       else [])
    let resultKeys := ["classification", "architecture", "dependencies", "context"]
    (List.zip resultKeys tasks).foldl (fun acc kt => setEntry acc kt.1 (resultEntry kt.2)) []
  else []

/-- `results[k]["from_cache"] = True` on a cached entry. -/
def withFromCache (v : Value) : Value :=
  match v with
  | .dict d => .dict (setEntry d "from_cache" (.bool true))
  | w => w

/-- `previous_knowledge.get("cycle_results", {})`, as read by the
adaptive strategy.  The knowledge store populated by
`_update_accumulated_knowledge` only ever holds the keys `project_path`,
`analysis_start`, `project_structure` and `cycle_<n>`, never
`cycle_results`. -/
def previousResultsOf (params : Dict) : Value :=
  vget (getD params "previous_knowledge" .null) "cycle_results" (.dict [])

/-- The reuse gate of `_execute_adaptive_analysis` for one analyzer:
`previous_knowledge` is truthy, the previous result found under
`cycle_results` carries a `confidence` above 0.9, and the cycle number
exceeds 1 (the source computes the skip flags inside the truthiness
guard and tests `cycle_number > 1` at each use site — the conjunction is
the same). -/
def adaptiveSkip (params : Dict) (analyzer : String) (cycleNumber : Nat) : Bool :=
  truthy (getD params "previous_knowledge" .null) &&
  decide (0.9 < vgetNum (vget (previousResultsOf params) analyzer (.dict [])) "confidence" 0) &&
  decide (1 < cycleNumber)

/-- Embeds `_execute_adaptive_analysis` (lines 530–582).  When the reuse
gate fires for classification/architecture the cached entry is copied
over tagged `from_cache`; the analyzers whose keys are still absent are
then run as in the sequential executor — and the function returns: the
`# Continue with other analyses...` comment in the source is followed
directly by `return results`, so dependencies and context are never
dispatched under this strategy. -/
def executeAdaptiveAnalysis (env : Env) (params : Dict) (cycleNumber : Nat) : Dict :=
  let results0 : Dict :=
    let ra : Dict :=
      if adaptiveSkip params "classification" cycleNumber then
        setEntry [] "classification"
          (withFromCache (vget (previousResultsOf params) "classification" (.dict [])))
      else []
    if adaptiveSkip params "architecture" cycleNumber then
      setEntry ra "architecture"
        (withFromCache (vget (previousResultsOf params) "architecture" (.dict [])))
    else ra
  let results1 :=
    if (getEntry results0 "classification").isNone then
      setEntry results0 "classification"
        (resultEntry (env.classify (paramStr params "analysis_depth")
          (paramBool params "include_dependencies" false)))
    else results0
  if (getEntry results1 "architecture").isNone then
    setEntry results1 "architecture"
      (resultEntry (env.detectArchitecture (getEntry results1 "classification")
        (paramBool params "framework_specific" true)))
  else results1

/-- `result.get("confidence", 0)` as used by the iterative-deepening merge
and `_is_better_result`. -/
def rawConfidence (v : Value) : ℚ := vgetNum v "confidence" 0

/-- Embeds `_execute_iterative_deepening` (lines 584–618): a full
sequential pass at `quick` depth; if its uncertainty list is non-empty, a
full sequential pass at `deep` depth (the uncertainty list is passed as
`focus_areas`, which `_execute_sequential_analysis` never reads), keeping
per key the deep result only when its raw `confidence` field strictly
exceeds the quick one's; otherwise the quick results unchanged. -/
def executeIterativeDeepening (env : Env) (params : Dict) : Dict :=
  let quickResults := executeSequentialAnalysis env (setEntry params "analysis_depth" (.str "quick"))
  let uncertaintyAreas := identifyCycleUncertainties quickResults
  if uncertaintyAreas.isEmpty then quickResults
  else
    let deepParams := setEntry (setEntry params "analysis_depth" (.str "deep"))
        "focus_areas" (.list (uncertaintyAreas.map .str))
    let deepResults := executeSequentialAnalysis env deepParams
    quickResults.foldl (fun acc kv =>
      setEntry acc kv.1
        (match getEntry deepResults kv.1 with
         | some dv => if rawConfidence kv.2 < rawConfidence dv then dv else kv.2
         | none => kv.2)) []

/-- The `AnalysisCycle` enum (lines 25–31). -/
inductive AnalysisCycle where
  | initialScan
  | deepAnalysis
  | contextAware
  | optimization
  | validation
  deriving Repr, DecidableEq

/-- The `.value` string of each cycle phase. -/
def AnalysisCycle.phase : AnalysisCycle → String
  | .initialScan => "initial_scan"
  | .deepAnalysis => "deep_analysis"
  | .contextAware => "context_aware"
  | .optimization => "optimization"
  | .validation => "validation"

/-- The `AnalysisStrategy` enum (lines 34–39). -/
inductive AnalysisStrategy where
  | sequential
  | parallel
  | adaptive
  | iterativeDeepening
  deriving Repr, DecidableEq

/-- Embeds `_determine_cycle_type` (lines 269–282): cycles 1–5 map to the
fixed sequence, later cycles default to optimization.  Cycle numbers
start at 1 (the loop pre-increments), so 0 is never passed. -/
def determineCycleType (cycleNumber : Nat) : AnalysisCycle :=
  match cycleNumber with
  | 1 => .initialScan
  | 2 => .deepAnalysis
  | 3 => .contextAware
  | 4 => .optimization
  | 5 => .validation
  | _ => .optimization

/-- Embeds `_prepare_cycle_parameters` (lines 359–406): the base dict in
source order, then `params.update(...)` with the cycle-type specific
keys.  `cycle_type` stores the enum's value string; `previous_knowledge`
is the accumulated knowledge for cycles after the first, else `None`. -/
def prepareCycleParameters (cycleNumber : Nat) (cycleType : AnalysisCycle)
    (depth : String) (cacheResults : Bool) (accumulatedKnowledge : Dict) : Dict :=
  let base : Dict :=
    [("cycle_number", .num (cycleNumber : ℚ)),
     ("cycle_type", .str cycleType.phase),
     ("analysis_depth", .str depth),
     ("use_cached_results", .bool (cacheResults && decide (1 < cycleNumber))),
     ("previous_knowledge",
        if 1 < cycleNumber then .dict accumulatedKnowledge else .null)]
  let extra : Dict :=
    match cycleType with
    | .initialScan =>
        [("include_dependencies", .bool false), ("include_history", .bool false),
         ("quick_mode", .bool true)]
    | .deepAnalysis =>
        [("include_dependencies", .bool true), ("include_history", .bool true),
         ("include_transitive", .bool true)]
    | .contextAware =>
        [("include_developer_profiles", .bool true), ("framework_specific", .bool true),
         ("check_patterns", .bool true)]
    | .optimization =>
        [("check_vulnerabilities", .bool true), ("check_licenses", .bool true),
         ("optimization_focus", .bool true)]
    | .validation =>
        [("validation_mode", .bool true), ("cross_check_results", .bool true),
         ("consistency_check", .bool true)]
  extra.foldl (fun acc kv => setEntry acc kv.1 kv.2) base

/-- The fields of `MultiCycleAnalysisConfig` (lines 57–67) that the
coordination logic reads.  `verbose_logging` only configures the logger,
`enable_mcp_integration` only fills a constant placeholder dict, and
`enable_adaptive_strategy` is never read. -/
structure Config where
  maxCycles : Nat := 5
  minConfidenceThreshold : ℚ := 0.85
  timeLimitSeconds : ℚ := 300
  cacheResults : Bool := true
  analysisDepthPerCycle : String := "increasing"

/-- The `AnalysisCycleResult` dataclass (lines 42–54).  The two wall-clock
datetimes are represented only through `duration`; nothing in the
coordination logic reads them. -/
structure CycleResult where
  cycleNumber : Nat
  cycleType : AnalysisCycle
  duration : ℚ
  results : Dict
  confidenceScores : List (String × ℚ)
  insightsDiscovered : List String
  uncertaintyAreas : List String
  nextCycleRecommendations : List String

/-- The coordinator's mutable analysis state (lines 105–110).
`analysisHistory` embeds `self.analysis_history`, which the module
declares and reads (`_generate_final_insights`, `get_analysis_summary`)
but never appends to — the model carries it, initialized empty and never
updated, exactly as the source does. -/
structure RunState where
  accumulatedKnowledge : Dict
  analysisHistory : List CycleResult
  insights : List AnalysisInsight
  uncertaintyAreas : List String
  confidenceTrajectory : List (List (String × ℚ))

/-- The exceptions the coordination code itself can raise (analyzer
exceptions are all caught at the executor boundary). -/
inductive PyErr where
  | nameError
  | zeroDivisionError
  | valueError
  deriving Repr, DecidableEq

/-- The state set up at the top of `coordinate_multi_cycle_analysis`
(lines 174–180).  The ISO `analysis_start` timestamp is modelled as the
empty string; the structure scan is the environment's. -/
def initState (env : Env) : RunState :=
  { accumulatedKnowledge :=
      [("project_path", .str env.projectPath),
       ("analysis_start", .str ""),
       ("project_structure", env.projectStructure)],
    analysisHistory := [],
    insights := [],
    uncertaintyAreas := [],
    confidenceTrajectory := [] }

/-- Embeds `_update_accumulated_knowledge` (lines 780–790): the cycle's
outputs are stored under the key `cycle_<n>` (the `timestamp` ISO string
is modelled as empty), and the cycle's confidence scores are appended to
the trajectory. -/
def updateAccumulatedKnowledge (st : RunState) (cr : CycleResult) : RunState :=
  { st with
    accumulatedKnowledge :=
      setEntry st.accumulatedKnowledge ("cycle_" ++ toString cr.cycleNumber)
        (.dict [("results", .dict cr.results),
                ("confidence_scores",
                  .dict (cr.confidenceScores.map (fun kv => (kv.1, Value.num kv.2)))),
                ("insights", .list (cr.insightsDiscovered.map .str)),
                ("timestamp", .str "")]),
    confidenceTrajectory := st.confidenceTrajectory ++ [cr.confidenceScores] }

/-- Embeds `_is_confidence_threshold_met` (lines 816–825): `False` when
the trajectory is empty; otherwise the average of the latest scores is
compared against the threshold — the division by `len(latest_scores)`
is NOT guarded, so an empty latest map raises `ZeroDivisionError`
(`none`). -/
def isConfidenceThresholdMet (trajectory : List (List (String × ℚ)))
    (threshold : ℚ) : Option Bool :=
  match trajectory.getLast? with
  | none => some false
  | some latest =>
      if latest.isEmpty then none
      else some (decide (threshold ≤ (latest.map (fun kv => kv.2)).sum / (latest.length : ℚ)))

/-- Embeds `_calculate_avg_confidence` (lines 1016–1020), which DOES
guard the empty map (returns 0.0). -/
def calculateAvgConfidence (confidenceScores : List (String × ℚ)) : ℚ :=
  if confidenceScores.isEmpty then 0
  else (confidenceScores.map (fun kv => kv.2)).sum / (confidenceScores.length : ℚ)

/-- Embeds `_should_continue_analysis` (lines 792–814), checked in source
order: time limit exceeded, confidence threshold met (may raise, hence
`none`), max cycles reached, and no-new-insights after cycle 2. -/
def shouldContinueAnalysis (cfg : Config) (trajectory : List (List (String × ℚ)))
    (cr : CycleResult) : Option Bool :=
  if cfg.timeLimitSeconds < cr.duration then some false
  else
    match isConfidenceThresholdMet trajectory cfg.minConfidenceThreshold with
    | none => none
    | some true => some false
    | some false =>
        if cfg.maxCycles ≤ cr.cycleNumber then some false
        else if cr.insightsDiscovered.length = 0 ∧ 2 < cr.cycleNumber then some false
        else some true

/-- Set insertion (`self.uncertainty_areas.add`), modelled as a
first-insertion-ordered duplicate-free list: only membership and size of
the set are ever observed. -/
def addUnique (xs : List String) (s : String) : List String :=
  if s ∈ xs then xs else xs ++ [s]

/-- Embeds `_update_uncertainty_areas` (lines 827–830). -/
def updateUncertaintyAreas (st : RunState) (cr : CycleResult) : RunState :=
  { st with uncertaintyAreas := cr.uncertaintyAreas.foldl addUnique st.uncertaintyAreas }

/-- Embeds `_is_better_result` (lines 886–895): strict comparison of the
raw `confidence` fields (default 0). -/
def isBetterResult (newResult existingResult : Value) : Bool :=
  decide (rawConfidence existingResult < rawConfidence newResult)

/-- The best-of-all-cycles merge of `_consolidate_results`
(lines 850–858): first occurrence wins unless a later result has a
strictly higher raw confidence. -/
def bestResults (cycleResults : List CycleResult) : Dict :=
  cycleResults.foldl (fun best cycle =>
    cycle.results.foldl (fun b kv =>
      match getEntry b kv.1 with
      | none => setEntry b kv.1 kv.2
      | some existing =>
          if isBetterResult kv.2 existing then setEntry b kv.1 kv.2 else b) best) []

/-- Embeds `_calculate_analysis_quality` (lines 897–940). -/
def calculateAnalysisQuality (best : Dict)
    (trajectory : List (List (String × ℚ))) : Dict :=
  let overall :=
    if best.isEmpty then 0
    else
      let confidences := best.filterMap (fun kv =>
        match kv.2 with
        | .dict d => some (getNum d "confidence" 0.5)
        | _ => none)
      if confidences.isEmpty then 0
      else confidences.sum / (confidences.length : ℚ)
  let expected := ["classification", "architecture", "dependencies", "context"]
  let completed := expected.filter (fun a =>
    match getEntry best a with
    | some (.dict d) => (getEntry d "error").isNone
    | some _ => true
    | none => false)
  let completeness := (completed.length : ℚ) / (expected.length : ℚ)
  let consistency :=
    if 1 < trajectory.length then
      let allScores := trajectory.flatMap (fun m => m.map (fun kv => kv.2))
      if allScores.isEmpty then 0
      else
        let mean := allScores.sum / (allScores.length : ℚ)
        let variance := (allScores.map (fun x => (x - mean) ^ 2)).sum / (allScores.length : ℚ)
        max 0 (1 - variance)
    else 0
  [("overall_confidence", .num overall),
   ("completeness_score", .num completeness),
   ("consistency_score", .num consistency)]

/-- Embeds `_consolidate_results` (lines 832–884). -/
def consolidateResults (st : RunState) (cycleResults : List CycleResult) : Dict :=
  let best := bestResults cycleResults
  let base : Dict :=
    [("project_type", .null), ("architecture", .null), ("complexity_score", .num 0),
     ("risk_level", .str "low"), ("recommendations", .list []),
     ("analysis_quality",
       .dict [("overall_confidence", .num 0), ("completeness_score", .num 0),
              ("consistency_score", .num 0)])]
  let c1 :=
    match getEntry best "classification" with
    | some cl =>
        setEntry (setEntry base "project_type" (vget cl "project_type" .null))
          "complexity_score" (vget cl "complexity_score" (.num 0))
    | none => base
  let c2 :=
    match getEntry best "architecture" with
    | some ar =>
        setEntry c1 "architecture"
          (.dict [("primary_pattern", vget ar "primary_pattern" .null),
                  ("framework", vget ar "framework" .null),
                  ("confidence", vget ar "confidence" .null)])
    | none => c1
  let c3 :=
    match getEntry best "dependencies" with
    | some dp =>
        if 0 < vgetNum (vget dp "summary" (.dict [])) "vulnerability_count" 0 then
          setEntry c2 "risk_level" (.str "high")
        else c2
    | none => c2
  setEntry c3 "analysis_quality" (.dict (calculateAnalysisQuality best st.confidenceTrajectory))

/-- Whether the module's namespace binds the name `defaultdict` used at
line 945.  The import list (lines 8–22: asyncio, json, time, pathlib,
typing, dataclasses, enum, logging, datetime, traceback, and the four
analyzer modules) never imports `collections`, and the module defines no
such name, so this is `false` and evaluating the name raises
`NameError`. -/
def moduleBindsDefaultdict : Bool := false

/-- The keys of `defaultdict(list)` grouping by `insight_type`, in first
occurrence order. -/
def groupKeys (insights : List AnalysisInsight) : List String :=
  insights.foldl (fun ks i => if i.insightType ∈ ks then ks else ks ++ [i.insightType]) []

/-- Python's `max(xs, key=lambda x: x.confidence)`: the first element of
maximal confidence. -/
def firstMaxByConfidence : List AnalysisInsight → Option AnalysisInsight
  | [] => none
  | i :: rest => some (rest.foldl (fun b x => if b.confidence < x.confidence then x else b) i)

/-- The body of `_generate_final_insights` (lines 942–976) as it would
execute if `defaultdict` were bound: one summary insight when any
high/critical-impact insight exists — whose `cycle_discovered` is
`max(...)` over `self.analysis_history`, raising `ValueError` whenever
that never-appended list is empty — followed by the highest-confidence
insight of each `insight_type` group (grouping ignores descriptions). -/
def generateFinalInsightsBody (insights : List AnalysisInsight)
    (analysisHistory : List CycleResult) : Except PyErr (List AnalysisInsight) :=
  let highImpact := insights.filter (fun i =>
    i.impactLevel = "high" ∨ i.impactLevel = "critical")
  let summaryPart : Except PyErr (List AnalysisInsight) :=
    if 0 < insights.length ∧ ¬highImpact.isEmpty then
      match (analysisHistory.map (fun c => c.cycleNumber)).max? with
      | none => .error .valueError
      | some m =>
          .ok [{ insightType := "summary",
                 description := "Found " ++ toString highImpact.length ++
                   " high-impact insights requiring attention",
                 confidence := 1,
                 evidence := ["High impact insights: " ++ toString highImpact.length],
                 cycleDiscovered := m, impactLevel := "high" }]
    else .ok []
  match summaryPart with
  | .error e => .error e
  | .ok s =>
      .ok (s ++ (groupKeys insights).filterMap (fun t =>
        firstMaxByConfidence (insights.filter (fun i => i.insightType = t))))

/-- Embeds `_generate_final_insights` (lines 942–976).  Its first
statement, `insight_groups = defaultdict(list)`, evaluates the unbound
name `defaultdict`, so in the module as written every call raises
`NameError` before any grouping happens. -/
def generateFinalInsights (insights : List AnalysisInsight)
    (analysisHistory : List CycleResult) : Except PyErr (List AnalysisInsight) :=
  if moduleBindsDefaultdict then generateFinalInsightsBody insights analysisHistory
  else .error .nameError

/-- Embeds `_generate_final_recommendations` (lines 978–1004).  The first
branch reads `performance_metrics["confidence_improvement"]` (bound to
the local name `overall_confidence` in the source). -/
def generateFinalRecommendations (confidenceImprovement : ℚ) (totalCycles : Nat)
    (cfg : Config) (uncertaintyAreas : List String)
    (insights : List AnalysisInsight) : List String :=
  (if confidenceImprovement < 0.7 then
    ["Consider additional manual analysis due to low confidence results"]
   else []) ++
  (if ¬uncertaintyAreas.isEmpty then
    ["Address these uncertainty areas: " ++ String.intercalate ", " (uncertaintyAreas.take 3)]
   else []) ++
  (if insights.any (fun i => i.impactLevel = "critical") then
    ["Immediately address critical insights for project health"]
   else []) ++
  (if totalCycles = cfg.maxCycles then
    ["Consider increasing max cycles for more complex projects"]
   else [])

/-- Embeds `_calculate_confidence_improvement` (lines 1006–1014): 0.0 for
fewer than two trajectory entries, otherwise last average minus first
average — each an unguarded division, raising on an empty score map. -/
def calculateConfidenceImprovement (trajectory : List (List (String × ℚ))) : Option ℚ :=
  if trajectory.length < 2 then some 0
  else
    match trajectory.head?, trajectory.getLast? with
    | some first, some last =>
        if first.isEmpty ∨ last.isEmpty then none
        else some ((last.map (fun kv => kv.2)).sum / (last.length : ℚ) -
                   (first.map (fun kv => kv.2)).sum / (first.length : ℚ))
    | _, _ => none

/-- Embeds `_execute_single_cycle` (lines 284–357): depth policy, cycle
parameters, strategy dispatch, scoring, insight extraction, uncertainty
identification, next-cycle recommendations, and appending the cycle's
insights to the run-wide list. -/
def executeSingleCycle (env : Env) (cfg : Config) (st : RunState)
    (cycleNumber : Nat) (strategy : AnalysisStrategy) : CycleResult × RunState :=
  let depth :=
    if cfg.analysisDepthPerCycle = "increasing" then
      if cycleNumber = 1 then "quick" else if 3 ≤ cycleNumber then "deep" else "standard"
    else cfg.analysisDepthPerCycle
  let cycleType := determineCycleType cycleNumber
  let params := prepareCycleParameters cycleNumber cycleType depth cfg.cacheResults
      st.accumulatedKnowledge
  let results :=
    match strategy with
    | .sequential => executeSequentialAnalysis env params
    | .parallel => executeParallelAnalysis env params
    | .adaptive => executeAdaptiveAnalysis env params cycleNumber
    | .iterativeDeepening => executeIterativeDeepening env params
  let confidenceScores := calculateConfidenceScores results
  let insights := extractCycleInsights results cycleNumber
  let uncertainties := identifyCycleUncertainties results
  let recommendations := generateCycleRecommendations results confidenceScores uncertainties
  let cr : CycleResult :=
    { cycleNumber := cycleNumber, cycleType := cycleType,
      duration := env.cycleDuration cycleNumber,
      results := results, confidenceScores := confidenceScores,
      insightsDiscovered := insights.map (fun i => i.description),
      uncertaintyAreas := uncertainties,
      nextCycleRecommendations := recommendations }
  (cr, { st with insights := st.insights ++ insights })

/-- The `while should_continue and current_cycle < max_cycles` loop of
`_execute_analysis_cycles` (lines 229–267), with the remaining cycle
budget as fuel.  Per iteration: execute the cycle, merge knowledge and
trajectory, evaluate continuation (propagating its possible
`ZeroDivisionError`), then merge the uncertainty set. -/
def executeAnalysisCyclesAux (env : Env) (cfg : Config) (strategy : AnalysisStrategy) :
    Nat → Nat → RunState → Except PyErr (List CycleResult × RunState)
  | 0, _, st => .ok ([], st)
  | fuel + 1, completed, st =>
      let n := completed + 1
      let (cr, st1) := executeSingleCycle env cfg st n strategy
      let st2 := updateAccumulatedKnowledge st1 cr
      match shouldContinueAnalysis cfg st2.confidenceTrajectory cr with
      | none => .error .zeroDivisionError
      | some cont =>
          let st3 := updateUncertaintyAreas st2 cr
          if cont then
            match executeAnalysisCyclesAux env cfg strategy fuel n st3 with
            | .error e => .error e
            | .ok (rest, st4) => .ok (cr :: rest, st4)
          else .ok ([cr], st3)

/-- Embeds `_execute_analysis_cycles` (lines 229–267). -/
def executeAnalysisCycles (env : Env) (cfg : Config) (strategy : AnalysisStrategy)
    (st : RunState) : Except PyErr (List CycleResult × RunState) :=
  executeAnalysisCyclesAux env cfg strategy cfg.maxCycles 0 st

/-- The result dict built at lines 204–219 of
`coordinate_multi_cycle_analysis`, flattened into a record (performance
metrics and analysis metadata inlined as fields).  Wall-clock total time
is modelled as the sum of cycle durations. -/
structure FinalResult where
  projectSummary : Dict
  analysisCycles : List CycleResult
  insights : List AnalysisInsight
  totalCycles : Nat
  totalTime : ℚ
  avgCycleTime : ℚ
  confidenceImprovement : ℚ
  insightsPerCycle : ℚ
  uncertaintyAreas : List String
  recommendations : List String
  strategyUsed : AnalysisStrategy
  maxCyclesReached : Bool
  confidenceThresholdMet : Bool

/-- Embeds `coordinate_multi_cycle_analysis` (lines 156–227): initialize
the knowledge store, run the cycle loop, consolidate, generate final
insights (which in the module as written raises `NameError`), update the
performance metrics and assemble the final result.  The `except` clause
at line 224 logs and re-raises, so every exception escapes the call. -/
def coordinateMultiCycleAnalysis (env : Env) (cfg : Config)
    (strategy : AnalysisStrategy) : Except PyErr FinalResult := do
  let st0 := initState env
  let (cycleResults, st) ← executeAnalysisCycles env cfg strategy st0
  let consolidated := consolidateResults st cycleResults
  let finalInsights ← generateFinalInsights st.insights st.analysisHistory
  let confImp ←
    match calculateConfidenceImprovement st.confidenceTrajectory with
    | none => Except.error PyErr.zeroDivisionError
    | some q => Except.ok q
  let thresholdMet ←
    match isConfidenceThresholdMet st.confidenceTrajectory cfg.minConfidenceThreshold with
    | none => Except.error PyErr.zeroDivisionError
    | some b => Except.ok b
  let totalTime := (cycleResults.map (fun c => c.duration)).sum
  Except.ok
    { projectSummary := consolidated,
      analysisCycles := cycleResults,
      insights := finalInsights,
      totalCycles := cycleResults.length,
      totalTime := totalTime,
      avgCycleTime := if cycleResults.isEmpty then 0 else totalTime / (cycleResults.length : ℚ),
      confidenceImprovement := confImp,
      insightsPerCycle :=
        if cycleResults.isEmpty then 0
        else (st.insights.length : ℚ) / (cycleResults.length : ℚ),
      uncertaintyAreas := st.uncertaintyAreas,
      recommendations := generateFinalRecommendations confImp cycleResults.length cfg
        st.uncertaintyAreas st.insights,
      strategyUsed := strategy,
      maxCyclesReached := decide (cfg.maxCycles ≤ cycleResults.length),
      confidenceThresholdMet := thresholdMet }

/-! Concrete example inputs used by counterexamples and witnesses. -/

/-- A total example environment: all four analyzers succeed with fixed,
realistic payloads. -/
def envA : Env :=
  { classify := fun _ _ =>
      .ok [("project_type", .str "web"), ("confidence_score", .num 0.95)],
    detectArchitecture := fun _ _ =>
      .ok [("primary_pattern", .str "mvc"), ("confidence", .num 0.8)],
    mapDependencies := fun _ _ =>
      .ok [("summary", .dict [("total_direct_dependencies", .num 3),
                              ("total_transitive_dependencies", .num 5)])],
    analyzeContext := fun _ _ =>
      .ok [("total_commits", .num 42), ("bus_factor", .num 3)],
    gatherOk := true, cycleDuration := fun _ => 1, projectPath := "/p",
    projectStructure := .dict [("total_files", .num 1)] }

/-- A cycle-1 result whose classification was stored with confidence
0.95 — exercising the adaptive reuse precondition. -/
def cachedCycleResult : CycleResult :=
  { cycleNumber := 1, cycleType := .initialScan, duration := 1,
    results := [("classification",
      .dict [("project_type", .str "cached"), ("confidence", .num 0.95)])],
    confidenceScores := [("classification", 0.95)],
    insightsDiscovered := [], uncertaintyAreas := [], nextCycleRecommendations := [] }

/-- The knowledge store exactly as `_update_accumulated_knowledge` leaves
it after that cycle. -/
def knowledgeAfterCycle1 : Dict :=
  (updateAccumulatedKnowledge (initState envA) cachedCycleResult).accumulatedKnowledge

/-- The cycle-2 parameters the orchestrator would build from that
store (cycle 2 is deep analysis: dependencies and history enabled). -/
def paramsCycle2 : Dict :=
  prepareCycleParameters 2 (determineCycleType 2) "standard" true knowledgeAfterCycle1

/-- Cycle-1 initial-scan parameters (dependencies and history disabled). -/
def paramsInitial : Dict := prepareCycleParameters 1 .initialScan "quick" true []

/-- An environment whose classifier fails at quick depth and succeeds at
deep depth, and whose architecture detector reports confidence 0.8 when
handed an error-marker classification but 0.95 when handed a successful
one. -/
def envQuickFail : Env :=
  { envA with
    classify := fun depth _ =>
      if depth = "quick" then .error "classification boom"
      else .ok [("project_type", .str "web"), ("confidence_score", .num 0.95)],
    detectArchitecture := fun pa _ =>
      match pa with
      | some (.dict d) =>
          if (getEntry d "error").isSome then
            .ok [("primary_pattern", .str "mvc"), ("confidence", .num 0.8)]
          else
            .ok [("primary_pattern", .str "mvc"), ("confidence", .num 0.95)]
      | _ => .ok [("primary_pattern", .str "mvc"), ("confidence", .num 0.5)] }

/-- An architecture oracle whose output depends on the `project_analysis`
argument it receives. -/
def archSensitive : Option Value → Bool → Except String Dict := fun pa _ =>
  match pa with
  | some (.dict d) =>
      if (getEntry d "error").isSome then
        .ok [("primary_pattern", .str "layered"), ("confidence", .num 0.2)]
      else
        .ok [("primary_pattern", .str "mvc"), ("confidence", .num 0.9)]
  | _ => .ok [("primary_pattern", .str "mvc"), ("confidence", .num 0.5)]

/-- `envA` with a classifier that always raises and the sensitive
architecture oracle. -/
def envFailingClassifier : Env :=
  { envA with classify := fun _ _ => .error "boom", detectArchitecture := archSensitive }

/-- `envA` with only the sensitive architecture oracle (classifier
healthy); shares its dependency and context oracles with
`envFailingClassifier`. -/
def envHealthyClassifier : Env := { envA with detectArchitecture := archSensitive }

/-- `envA` with a failing parallel fan-out. -/
def envGatherFail : Env := { envA with gatherOk := false }

/-- A critical-impact insight with confidence 0.6. -/
def insightLow : AnalysisInsight :=
  { insightType := "security",
    description := "Found 1 potential security vulnerabilities",
    confidence := 0.6, evidence := [], cycleDiscovered := 1, impactLevel := "critical" }

/-- The same kind and description rediscovered with confidence 0.9. -/
def insightHigh : AnalysisInsight := { insightLow with confidence := 0.9, cycleDiscovered := 2 }

/-- A cycle result with one non-empty confidence map, used to instantiate
the termination theorems. -/
def cycleW : CycleResult :=
  { cycleNumber := 1, cycleType := .initialScan, duration := 1,
    results := [("classification", .dict [("error", .str "x")])],
    confidenceScores := [("classification", 0.5)],
    insightsDiscovered := ["i"], uncertaintyAreas := [], nextCycleRecommendations := [] }

/-! Helper lemmas about the dict operations and the executors. -/

lemma getEntry_append (a b : Dict) (k : String) :
    getEntry (a ++ b) k =
      (match getEntry a k with
       | some v => some v
       | none => getEntry b k) := by
  induction a with
  | nil => rfl
  | cons hd t ih =>
      obtain ⟨k1, v1⟩ := hd
      by_cases hk : k1 = k
      · simp [getEntry, hk]
      · simp [getEntry, hk, ih]

lemma setEntry_of_absent (d : Dict) (k : String) (v : Value)
    (h : getEntry d k = none) : setEntry d k v = d ++ [(k, v)] := by
  induction d with
  | nil => rfl
  | cons hd t ih =>
      obtain ⟨k1, v1⟩ := hd
      by_cases hk : k1 = k
      · simp [getEntry, hk] at h
      · simp only [getEntry, if_neg hk] at h
        simp [setEntry, hk, ih h]

/-- The keys of a sequential pass, in dispatch order: classification and
architecture always, the gated dependency and context entries exactly
when the cycle parameters enable them. -/
lemma executeSequentialAnalysis_keys (env : Env) (params : Dict) :
    (executeSequentialAnalysis env params).map Prod.fst =
      ["classification", "architecture"] ++
      (if paramBool params "include_dependencies" false then ["dependencies"] else []) ++
      (if paramBool params "include_history" false then ["context"] else []) := by
  cases hd : paramBool params "include_dependencies" false <;>
    cases hh : paramBool params "include_history" false <;>
      simp only [executeSequentialAnalysis, hd, hh] <;> rfl

lemma foldl_setEntry_map (f : String × Value → Value) (l : Dict) :
    ∀ acc : Dict, (l.map Prod.fst).Nodup →
      (∀ k ∈ l.map Prod.fst, getEntry acc k = none) →
      l.foldl (fun a kv => setEntry a kv.1 (f kv)) acc =
        acc ++ l.map (fun kv => (kv.1, f kv)) := by
  induction l with
  | nil => intro acc _ _; simp
  | cons hd t ih =>
      intro acc hnd habs
      obtain ⟨k1, v1⟩ := hd
      simp only [List.map_cons, List.nodup_cons] at hnd
      have h1 : getEntry acc k1 = none := habs k1 (by simp)
      simp only [List.foldl_cons]
      rw [setEntry_of_absent acc k1 (f (k1, v1)) h1]
      rw [ih (acc ++ [(k1, f (k1, v1))]) hnd.2 ?_]
      · simp
      · intro k hk
        rw [getEntry_append]
        have : getEntry acc k = none := habs k (by simp [hk])
        rw [this]
        have hne : k1 ≠ k := fun he => hnd.1 (he ▸ hk)
        simp [getEntry, hne]

lemma calculateConfidenceScores_keys (rs : Dict) :
    (calculateConfidenceScores rs).map Prod.fst = rs.map Prod.fst := by
  induction rs with
  | nil => rfl
  | cons hd t ih => simp_all [calculateConfidenceScores]

/-! Claim C2. -/

/-- C2 counterexample: the error marker `{error: "boom"}` is a dict that
matches no payload shape, so `_calculate_confidence_scores` assigns it
the default confidence 0.5 — not 0.0 as the claim states (the 0.0 branch
is reserved for non-dict results, which never occur). -/
theorem c2_counterexample :
    calculateConfidenceScores [("classification", .dict [("error", .str "boom")])] =
      [("classification", (0.5 : ℚ))] ∧ (0.5 : ℚ) ≠ 0 :=
  ⟨rfl, by norm_num⟩

/-- C2 amended: the confidence-score map has exactly one entry per entry
of the results dict, in order (and for a sequential cycle the keys are
exactly the analyzers scheduled by the cycle parameters); an analyzer
whose result is the error marker `{error: m}` is assigned confidence 0.5,
never absent. -/
theorem c2_confidence_scores_amended (results : Dict) (env : Env) (params : Dict) :
    ((calculateConfidenceScores results).map Prod.fst = results.map Prod.fst) ∧
    (∀ a m, (a, Value.dict [("error", Value.str m)]) ∈ results →
      (a, (0.5 : ℚ)) ∈ calculateConfidenceScores results) ∧
    ((calculateConfidenceScores (executeSequentialAnalysis env params)).map Prod.fst =
      ["classification", "architecture"] ++
      (if paramBool params "include_dependencies" false then ["dependencies"] else []) ++
      (if paramBool params "include_history" false then ["context"] else [])) := by
  refine ⟨calculateConfidenceScores_keys results, ?_, ?_⟩
  · intro a m h
    exact List.mem_map.mpr ⟨(a, Value.dict [("error", Value.str m)]), h, rfl⟩
  · rw [calculateConfidenceScores_keys, executeSequentialAnalysis_keys]

/-- C2 witness: the amended theorem applied to a concrete one-entry
results dict holding an error marker. -/
theorem c2_confidence_scores_amended_witness :
    ("classification", (0.5 : ℚ)) ∈
      calculateConfidenceScores [("classification", Value.dict [("error", Value.str "x")])] :=
  (c2_confidence_scores_amended [("classification", Value.dict [("error", Value.str "x")])]
    envA []).2.1 "classification" "x" (List.mem_singleton.mpr rfl)

/-! Claim C9. -/

lemma mem_uncertaintyFlags (t : String) (r : Value) (s : String) :
    s ∈ uncertaintyFlags t r ↔
      ∃ d, r = Value.dict d ∧
        ((getNum d "confidence" 0.5 < 0.7 ∧ s = "Low confidence in " ++ t ++ " analysis") ∨
         (∃ e, getEntry d "error" = some e ∧ s = "Error in " ++ t ++ ": " ++ errText e) ∨
         (t = "dependencies" ∧
           vgetNum (getD d "summary" (.dict [])) "total_direct_dependencies" 0 = 0 ∧
           s = "No dependencies detected") ∨
         (t = "context" ∧ getNum d "total_commits" 0 = 0 ∧ s = "No git history available")) := by
  cases r with
  | dict d =>
      rcases he : getEntry d "error" with _ | e <;>
        simp only [uncertaintyFlags, he, List.mem_append] <;>
        split_ifs with h1 h2 h3 <;>
        simp_all <;> try tauto
  | null => simp [uncertaintyFlags]
  | bool b => simp [uncertaintyFlags]
  | num q => simp [uncertaintyFlags]
  | str s2 => simp [uncertaintyFlags]
  | list xs => simp [uncertaintyFlags]

/-- C9 counterexample: on the results dict
`{classification: {error: "boom"}}` the tracker emits the strings
`Low confidence in classification analysis` (the raw confidence field
defaults to 0.5, below 0.7, even for an error result) and
`Error in classification: boom`; neither of the strings the claim
specifies (`low confidence in classification`,
`error in classification: boom`) is ever emitted — the emitted text
differs in capitalization and in the ` analysis` suffix. -/
theorem c9_counterexample :
    identifyCycleUncertainties [("classification", .dict [("error", .str "boom")])] =
      ["Low confidence in classification analysis", "Error in classification: boom"] ∧
    "low confidence in classification" ∉
      identifyCycleUncertainties [("classification", .dict [("error", .str "boom")])] ∧
    "error in classification: boom" ∉
      identifyCycleUncertainties [("classification", .dict [("error", .str "boom")])] := by
  refine ⟨?_, ?_, ?_⟩ <;> with_unfolding_all decide

/-- C9 amended: a string is emitted by the Uncertainty Tracker for a
cycle iff some dict-valued entry `(t, r)` of the results dict produces
it as one of: `Low confidence in <t> analysis` when the raw `confidence`
field of `r` (default 0.5 — the computed confidence scores are not
consulted) is below 0.7; `Error in <t>: <message>` when `r` has an
`error` field; `No dependencies detected` when `t = dependencies` and
`summary.total_direct_dependencies` (default 0, hence also for error
results) is 0; `No git history available` when `t = context` and
`total_commits` (default 0) is 0. -/
theorem c9_uncertainty_flags_amended (results : Dict) (s : String) :
    s ∈ identifyCycleUncertainties results ↔
      ∃ t r, (t, r) ∈ results ∧ ∃ d, r = Value.dict d ∧
        ((getNum d "confidence" 0.5 < 0.7 ∧ s = "Low confidence in " ++ t ++ " analysis") ∨
         (∃ e, getEntry d "error" = some e ∧ s = "Error in " ++ t ++ ": " ++ errText e) ∨
         (t = "dependencies" ∧
           vgetNum (getD d "summary" (.dict [])) "total_direct_dependencies" 0 = 0 ∧
           s = "No dependencies detected") ∨
         (t = "context" ∧ getNum d "total_commits" 0 = 0 ∧ s = "No git history available")) := by
  simp only [identifyCycleUncertainties, List.mem_flatMap]
  constructor
  · rintro ⟨⟨t, r⟩, hm, hs⟩
    exact ⟨t, r, hm, (mem_uncertaintyFlags t r s).1 hs⟩
  · rintro ⟨t, r, hm, h⟩
    exact ⟨(t, r), hm, (mem_uncertaintyFlags t r s).2 h⟩

/-! Claim C10. -/

/-- C10: `_is_confidence_threshold_met` divides by the entry count of the
latest recorded confidence-score map without guarding the empty case —
an empty latest map raises ZeroDivisionError (modelled `none`), while
any non-empty latest map yields a boolean; the sibling
`_calculate_avg_confidence` guards the empty map (returns 0); and the
empty map is reachable: the Parallel strategy returns an empty results
dict when its fan-out fails, and scoring an empty dict records an empty
confidence map. -/
theorem c10_threshold_division_guard :
    (∀ (trajectory : List (List (String × ℚ))) (threshold : ℚ),
        trajectory.getLast? = some [] →
        isConfidenceThresholdMet trajectory threshold = none) ∧
    (∀ (trajectory : List (List (String × ℚ))) (threshold : ℚ) (latest : List (String × ℚ)),
        trajectory.getLast? = some latest → latest ≠ [] →
        ∃ b, isConfidenceThresholdMet trajectory threshold = some b) ∧
    calculateAvgConfidence [] = 0 ∧
    (∀ (env : Env) (params : Dict), env.gatherOk = false →
        executeParallelAnalysis env params = [] ∧ calculateConfidenceScores [] = []) := by
  refine ⟨?_, ?_, rfl, ?_⟩
  · intro traj θ h
    simp [isConfidenceThresholdMet, h]
  · intro traj θ latest h hne
    simp only [isConfidenceThresholdMet, h]
    rw [if_neg (by simpa [List.isEmpty_iff] using hne)]
    exact ⟨_, rfl⟩
  · intro env params h
    exact ⟨by simp [executeParallelAnalysis, h], rfl⟩

/-- C10 witness: a trajectory whose latest map is empty makes the
threshold check raise, and a failed parallel fan-out produces the empty
results dict. -/
theorem c10_threshold_division_guard_witness :
    isConfidenceThresholdMet [[("classification", (1:ℚ)/2)], []] (17/20) = none ∧
    executeParallelAnalysis envGatherFail paramsInitial = [] :=
  ⟨c10_threshold_division_guard.1 [[("classification", (1:ℚ)/2)], []] (17/20) rfl,
   (c10_threshold_division_guard.2.2.2 envGatherFail paramsInitial rfl).1⟩

/-! Claim C4. -/

/-- C4: after a cycle (whose confidence scores were just appended to the
trajectory, as the orchestrator does before consulting the evaluator),
the decision is to stop iff the cycle duration exceeds the time limit,
or the average of the latest confidence scores reaches the threshold, or
the cycle number reaches `max_cycles`, or the cycle number exceeds 2 and
the cycle discovered no insights — the embedding checks them in exactly
the source order, first true winning; in particular with threshold 0 and
non-negative scores the decision after any cycle (including cycle 1) is
to stop. -/
theorem c4_termination_conditions (cfg : Config) (prev : List (List (String × ℚ)))
    (cr : CycleResult) (hne : cr.confidenceScores ≠ []) :
    (shouldContinueAnalysis cfg (prev ++ [cr.confidenceScores]) cr = some false ↔
      (cfg.timeLimitSeconds < cr.duration ∨
       cfg.minConfidenceThreshold ≤ calculateAvgConfidence cr.confidenceScores ∨
       cfg.maxCycles ≤ cr.cycleNumber ∨
       (2 < cr.cycleNumber ∧ cr.insightsDiscovered = []))) ∧
    (cfg.minConfidenceThreshold = 0 → (∀ kv ∈ cr.confidenceScores, 0 ≤ kv.2) →
      shouldContinueAnalysis cfg (prev ++ [cr.confidenceScores]) cr = some false) := by
  have hmet : isConfidenceThresholdMet (prev ++ [cr.confidenceScores])
      cfg.minConfidenceThreshold =
      some (decide (cfg.minConfidenceThreshold ≤ calculateAvgConfidence cr.confidenceScores)) := by
    simp only [isConfidenceThresholdMet, List.getLast?_concat]
    rw [if_neg (by simpa [List.isEmpty_iff] using hne)]
    rw [calculateAvgConfidence, if_neg (by simpa [List.isEmpty_iff] using hne)]
  have hiff : shouldContinueAnalysis cfg (prev ++ [cr.confidenceScores]) cr = some false ↔
      (cfg.timeLimitSeconds < cr.duration ∨
       cfg.minConfidenceThreshold ≤ calculateAvgConfidence cr.confidenceScores ∨
       cfg.maxCycles ≤ cr.cycleNumber ∨
       (2 < cr.cycleNumber ∧ cr.insightsDiscovered = [])) := by
    by_cases hA : cfg.timeLimitSeconds < cr.duration <;>
      by_cases hB : cfg.minConfidenceThreshold ≤ calculateAvgConfidence cr.confidenceScores <;>
        by_cases hC : cfg.maxCycles ≤ cr.cycleNumber <;>
          by_cases hD : cr.insightsDiscovered = [] ∧ 2 < cr.cycleNumber <;>
            simp [shouldContinueAnalysis, hmet, hA, hB, hC, hD, List.length_eq_zero] <;>
              tauto
  refine ⟨hiff, ?_⟩
  intro h0 hpos
  apply hiff.mpr
  refine Or.inr (Or.inl ?_)
  rw [h0, calculateAvgConfidence, if_neg (by simpa [List.isEmpty_iff] using hne)]
  apply div_nonneg
  · apply List.sum_nonneg
    intro x hx
    rcases List.mem_map.1 hx with ⟨kv, hkv, rfl⟩
    exact hpos kv hkv
  · exact Nat.cast_nonneg _

/-- C4 witness: with threshold 0, the evaluator stops after the concrete
cycle-1 result. -/
theorem c4_termination_conditions_witness :
    shouldContinueAnalysis ({ minConfidenceThreshold := 0 } : Config)
      [cycleW.confidenceScores] cycleW = some false :=
  (c4_termination_conditions { minConfidenceThreshold := 0 } [] cycleW
    (by with_unfolding_all decide)).2 rfl (by with_unfolding_all decide)

/-! Claim C3. -/

/-- C3: the adaptive cache lookup is dead code.  After cycle 1 the
knowledge store holds the cached classification (confidence 0.95,
exceeding the 0.9 gate) under the key `cycle_1`, but the store has no
`cycle_results` key — the only key `_execute_adaptive_analysis` consults
— so the reuse gate evaluates false and cycle 2 recomputes
classification: the returned entry is the fresh analyzer payload
(`project_type = web`, not the cached `cached`) and carries no
`from_cache` tag, contradicting the claimed reuse. -/
theorem c3_adaptive_cache_never_hits :
    getEntry knowledgeAfterCycle1 "cycle_results" = none ∧
    (0.9 < vgetNum (vget (vget (getD knowledgeAfterCycle1 "cycle_1" .null) "results" .null)
        "classification" .null) "confidence" 0) ∧
    adaptiveSkip paramsCycle2 "classification" 2 = false ∧
    vget (getD (executeAdaptiveAnalysis envA paramsCycle2 2) "classification" .null)
      "from_cache" .null = .null ∧
    vget (getD (executeAdaptiveAnalysis envA paramsCycle2 2) "classification" .null)
      "project_type" .null = .str "web" := by
  refine ⟨?_, ?_, ?_, ?_, ?_⟩
  · with_unfolding_all rfl
  · with_unfolding_all decide
  · with_unfolding_all rfl
  · with_unfolding_all rfl
  · with_unfolding_all rfl

/-! Claim C7. -/

/-- C7 counterexample: in cycle 2 (deep analysis: dependencies and
history enabled) with no qualifying cached result, the adaptive strategy
returns a 2-entry map without the `dependencies` entry, while the
sequential strategy on the same parameters returns 4 entries including
it — the claimed equality of the two result maps fails. -/
theorem c7_counterexample :
    paramBool paramsCycle2 "include_dependencies" false = true ∧
    adaptiveSkip paramsCycle2 "classification" 2 = false ∧
    adaptiveSkip paramsCycle2 "architecture" 2 = false ∧
    getEntry (executeAdaptiveAnalysis envA paramsCycle2 2) "dependencies" = none ∧
    getEntry (executeSequentialAnalysis envA paramsCycle2) "dependencies" =
      some (.dict [("summary", .dict [("total_direct_dependencies", .num 3),
                                      ("total_transitive_dependencies", .num 5)])]) ∧
    (executeAdaptiveAnalysis envA paramsCycle2 2).length = 2 ∧
    (executeSequentialAnalysis envA paramsCycle2).length = 4 := by
  refine ⟨?_, ?_, ?_, ?_, ?_, ?_, ?_⟩ <;> with_unfolding_all rfl

/-- C7 amended: whenever no cached result qualifies for reuse, the
adaptive strategy returns exactly the first two entries (classification
and architecture) of the sequential result for the same location and
parameters — dependency and context entries are never produced, even
when the cycle parameters enable them. -/
theorem c7_adaptive_runs_first_two (az : Env) (params : Dict) (n : Nat)
    (hC : adaptiveSkip params "classification" n = false)
    (hA : adaptiveSkip params "architecture" n = false) :
    executeAdaptiveAnalysis az params n = (executeSequentialAnalysis az params).take 2 := by
  cases hd : paramBool params "include_dependencies" false <;>
    cases hh : paramBool params "include_history" false <;>
      simp only [executeAdaptiveAnalysis, executeSequentialAnalysis, hC, hA, hd, hh,
        getEntry, setEntry] <;> rfl

/-- C7 witness: the amended theorem applied to the concrete cycle-2
parameters. -/
theorem c7_adaptive_runs_first_two_witness :
    executeAdaptiveAnalysis envA paramsCycle2 2 =
      (executeSequentialAnalysis envA paramsCycle2).take 2 :=
  c7_adaptive_runs_first_two envA paramsCycle2 2 (by with_unfolding_all rfl)
    (by with_unfolding_all rfl)

/-! Claim C5. -/

/-- C5 counterexample: two insights with identical kind and description
and confidences 0.6 and 0.9 are handed to final consolidation (the
`analysis_history` argument is the empty list, exactly what the module —
which never appends to `self.analysis_history` — passes at that point);
the call raises NameError instead of returning any list, so no final
report containing the deduplicated confidence-0.9 insight exists. -/
theorem c5_counterexample :
    insightLow.insightType = insightHigh.insightType ∧
    insightLow.description = insightHigh.description ∧
    insightLow.confidence = 0.6 ∧ insightHigh.confidence = 0.9 ∧
    generateFinalInsights [insightLow, insightHigh] [] = .error .nameError ∧
    ∀ l : List AnalysisInsight, generateFinalInsights [insightLow, insightHigh] [] ≠ .ok l :=
  ⟨rfl, rfl, rfl, rfl, rfl, fun _ h => Except.noConfusion h⟩

/-- C5 amended: final consolidation never deduplicates anything —
`_generate_final_insights` evaluates the unbound name `defaultdict` as
its first statement and raises NameError on every call, so no final
insight list is ever produced. -/
theorem c5_final_insights_always_raise (insights : List AnalysisInsight)
    (history : List CycleResult) :
    generateFinalInsights insights history = .error .nameError := rfl

/-! Claim C8. -/

/-- C8 counterexample: two environments agreeing on every analyzer
except classification (failing in one, succeeding in the other).  The
architecture entry of the sequential result differs between the two runs
(raw confidence 0.2 versus 0.9), because the error marker produced by
the classification failure is passed to the architecture analyzer as its
`project_analysis` input — so the architecture entry is NOT unaffected
by a classification failure, contrary to the claim. -/
theorem c8_counterexample :
    envFailingClassifier.mapDependencies = envHealthyClassifier.mapDependencies ∧
    envFailingClassifier.analyzeContext = envHealthyClassifier.analyzeContext ∧
    envFailingClassifier.detectArchitecture = envHealthyClassifier.detectArchitecture ∧
    rawConfidence (getD (executeSequentialAnalysis envFailingClassifier paramsInitial)
      "architecture" .null) = 0.2 ∧
    rawConfidence (getD (executeSequentialAnalysis envHealthyClassifier paramsInitial)
      "architecture" .null) = 0.9 ∧
    (0.2 : ℚ) ≠ 0.9 := by
  refine ⟨rfl, rfl, rfl, ?_, ?_, by norm_num⟩ <;> with_unfolding_all rfl

/-- C8 amended: under Sequential, a raising classification analyzer is
recorded as the error marker, every remaining applicable analyzer is
still invoked (architecture receives an entry; dependencies and context
receive their gated entries), and the dependency and context entries are
unaffected by the failure — equal to those of any run sharing the
dependency and context oracles; only the architecture entry may differ,
since it is computed from the classification entry. -/
theorem c8_sequential_error_isolation (az az2 : Env) (params : Dict) (m : String)
    (hdep : az.mapDependencies = az2.mapDependencies)
    (hctx : az.analyzeContext = az2.analyzeContext)
    (hcl : az.classify = fun _ _ => .error m) :
    getEntry (executeSequentialAnalysis az params) "classification" =
      some (.dict [("error", .str m)]) ∧
    (∃ v, getEntry (executeSequentialAnalysis az params) "architecture" = some v) ∧
    getEntry (executeSequentialAnalysis az params) "dependencies" =
      getEntry (executeSequentialAnalysis az2 params) "dependencies" ∧
    getEntry (executeSequentialAnalysis az params) "context" =
      getEntry (executeSequentialAnalysis az2 params) "context" := by
  cases hd : paramBool params "include_dependencies" false <;>
    cases hh : paramBool params "include_history" false <;>
      simp only [executeSequentialAnalysis, hcl, hdep, hctx, hd, hh] <;>
        exact ⟨rfl, ⟨_, rfl⟩, rfl, rfl⟩

/-- C8 witness: the amended theorem applied to the concrete environment
pair. -/
theorem c8_sequential_error_isolation_witness :
    getEntry (executeSequentialAnalysis envFailingClassifier paramsInitial) "classification" =
      some (.dict [("error", .str "boom")]) :=
  (c8_sequential_error_isolation envFailingClassifier envHealthyClassifier paramsInitial "boom"
    rfl rfl rfl).1

/-! Claim C1. -/

/-- C1: the run never returns normally.  Whatever the environment,
configuration and strategy, `coordinate_multi_cycle_analysis` raises —
after the cycle loop completes, `_generate_final_insights` evaluates the
unbound name `defaultdict` and the resulting NameError is re-raised by
the `except` clause (the only other escape is the ZeroDivisionError of
the unguarded threshold check); concretely, a one-cycle run in which all
four analyzers succeed still raises NameError, so the claimed
consolidated report is never produced. -/
theorem c1_run_always_raises :
    (∀ (env : Env) (cfg : Config) (strategy : AnalysisStrategy),
        ∃ e, coordinateMultiCycleAnalysis env cfg strategy = .error e) ∧
    coordinateMultiCycleAnalysis envA { maxCycles := 1 } .sequential = .error .nameError := by
  constructor
  · intro env cfg strategy
    cases h : executeAnalysisCycles env cfg strategy (initState env) with
    | error e =>
        refine ⟨e, ?_⟩
        simp only [coordinateMultiCycleAnalysis]
        rw [h]
        rfl
    | ok pr =>
        refine ⟨.nameError, ?_⟩
        simp only [coordinateMultiCycleAnalysis]
        rw [h]
        rfl
  · with_unfolding_all rfl

/-! Claim C6. -/

/-- C6 counterexample: with the quick-failing classifier environment, the
uncertainty flags of the quick pass concern classification only — the
architecture result (raw confidence 0.8, no error) is not flagged — yet
the final architecture entry is the deep-pass result (raw confidence
0.95): the deep pass re-runs every applicable analyzer, not only the
uncertain ones, contradicting the claim that only flagged analyzers are
re-run. -/
theorem c6_counterexample :
    identifyCycleUncertainties (executeSequentialAnalysis envQuickFail
        (setEntry paramsInitial "analysis_depth" (.str "quick"))) =
      ["Low confidence in classification analysis",
       "Error in classification: classification boom"] ∧
    rawConfidence (getD (executeSequentialAnalysis envQuickFail
        (setEntry paramsInitial "analysis_depth" (.str "quick"))) "architecture" .null) = 0.8 ∧
    rawConfidence (getD (executeIterativeDeepening envQuickFail paramsInitial)
      "architecture" .null) = 0.95 ∧
    (0.8 : ℚ) ≠ 0.95 := by
  refine ⟨?_, ?_, ?_, by norm_num⟩ <;> with_unfolding_all decide

/-- C6 amended: every cycle first runs all applicable analyzers at quick
depth; when the uncertainty list is empty the quick results are final;
when it is non-empty ALL applicable analyzers are re-run at deep depth
(the uncertainty list is only passed along as the ignored `focus_areas`
parameter), and per analyzer the deep result is kept exactly when its
raw `confidence` field (default 0) strictly exceeds the quick one,
otherwise the quick result is kept. -/
theorem c6_iterative_deepening_merge (az : Env) (params : Dict) :
    (identifyCycleUncertainties
        (executeSequentialAnalysis az (setEntry params "analysis_depth" (.str "quick"))) = [] →
      executeIterativeDeepening az params =
        executeSequentialAnalysis az (setEntry params "analysis_depth" (.str "quick"))) ∧
    (identifyCycleUncertainties
        (executeSequentialAnalysis az (setEntry params "analysis_depth" (.str "quick"))) ≠ [] →
      executeIterativeDeepening az params =
        (executeSequentialAnalysis az (setEntry params "analysis_depth" (.str "quick"))).map
          (fun kv => (kv.1,
            match getEntry (executeSequentialAnalysis az
                (setEntry (setEntry params "analysis_depth" (.str "deep")) "focus_areas"
                  (.list ((identifyCycleUncertainties (executeSequentialAnalysis az
                    (setEntry params "analysis_depth" (.str "quick")))).map .str)))) kv.1 with
             | some dv => if rawConfidence kv.2 < rawConfidence dv then dv else kv.2
             | none => kv.2))) := by
  constructor
  · intro h
    simp [executeIterativeDeepening, h]
  · intro h
    have hkeys := executeSequentialAnalysis_keys az (setEntry params "analysis_depth" (.str "quick"))
    have hnd : ((executeSequentialAnalysis az
        (setEntry params "analysis_depth" (.str "quick"))).map Prod.fst).Nodup := by
      rw [hkeys]
      cases paramBool (setEntry params "analysis_depth" (.str "quick"))
          "include_dependencies" false <;>
        cases paramBool (setEntry params "analysis_depth" (.str "quick"))
            "include_history" false <;> decide
    simp only [executeIterativeDeepening]
    rw [if_neg (show ¬((identifyCycleUncertainties (executeSequentialAnalysis az
        (setEntry params "analysis_depth" (Value.str "quick")))).isEmpty = true) from by
      simpa [List.isEmpty_iff] using h)]
    rw [foldl_setEntry_map _ _ [] hnd (fun k _ => rfl)]
    simp

/-- C6 witness: the amended theorem applied to the quick-failing
environment, where the uncertainty list is non-empty. -/
theorem c6_iterative_deepening_merge_witness :
    executeIterativeDeepening envQuickFail paramsInitial =
      (executeSequentialAnalysis envQuickFail
          (setEntry paramsInitial "analysis_depth" (.str "quick"))).map
        (fun kv => (kv.1,
          match getEntry (executeSequentialAnalysis envQuickFail
              (setEntry (setEntry paramsInitial "analysis_depth" (.str "deep")) "focus_areas"
                (.list ((identifyCycleUncertainties (executeSequentialAnalysis envQuickFail
                  (setEntry paramsInitial "analysis_depth" (.str "quick")))).map .str)))) kv.1 with
           | some dv => if rawConfidence kv.2 < rawConfidence dv then dv else kv.2
           | none => kv.2)) :=
  (c6_iterative_deepening_merge envQuickFail paramsInitial).2 (by with_unfolding_all decide)

end MultiCycle
